import Mathlib

/-!
Verification of `src/python/src/utils/create_clob_client.py` from the
Polymarket copy-trading bot.  The file below is a shallow embedding of that
module: each Python function is translated into a total Lean function over
explicit representations of the values it manipulates and of the external
world it observes (RPC results, spawned-process outcomes, environment
variables, credential-API outcomes).
-/

/-- Python / JSON values, as manipulated by the module (dict values, the
request/response documents of the CLOB bridge, order fields).  `PyVal.none`
is Python's `None` / JSON `null`. -/
inductive PyVal where
  | none : PyVal
  | bool : Bool → PyVal
  | int : Int → PyVal
  | str : String → PyVal
  | list : List PyVal → PyVal
  | dict : List (String × PyVal) → PyVal

/-- Python truthiness (`if x:`) for the values above: `None`, `False`, `0`,
`""`, `[]` and the empty dict are falsy, everything else truthy. -/
def pyTruthy : PyVal → Bool
  | PyVal.none => false
  | PyVal.bool b => b
  | PyVal.int n => n != 0
  | PyVal.str s => s != ""
  | PyVal.list xs => !xs.isEmpty
  | PyVal.dict d => !d.isEmpty

/-- Python `a or b` on values (used for `order.get('tokenID') or
order.get('tokenId')`): the left value when truthy, else the right one. -/
def pyOr (a b : PyVal) : PyVal := if pyTruthy a then a else b

/-- Python `d.get(k)` on a string-keyed dict: the stored value, or `None`
when the key is absent. -/
def dictGet (d : List (String × PyVal)) (k : String) : PyVal :=
  match List.lookup k d with
  | Option.some v => v
  | Option.none => PyVal.none

/-- Python `str.strip()` (the module calls it on decoded stderr/stdout):
drop leading and trailing whitespace. -/
def pyStrip (s : String) : String :=
  String.mk (((s.toList.dropWhile Char.isWhitespace).reverse.dropWhile
    Char.isWhitespace).reverse)

/-- Python `str.rstrip(c)` for a single character (the constructor calls
`host.rstrip('/')`). -/
def pyRstrip (s : String) (c : Char) : String :=
  String.mk ((s.toList.reverse.dropWhile (fun a => a == c)).reverse)

/-- The environment-derived configuration object `ENV` consumed by the
module, plus the `CLOB_SIGNATURE_TYPE` variable read through `os.getenv`
(`Option.none` when the variable is unset). -/
structure EnvConfig where
  RPC_URL : String
  CLOB_HTTP_URL : String
  PRIVATE_KEY : String
  PROXY_WALLET : String
  CLOB_SIGNATURE_TYPE : Option String

/-- The two bytes of the Python literal `b'0x'` (ASCII `0`, ASCII `x`),
which `is_contract_wallet` compares against the RPC result. -/
def b0x : List Nat := [48, 120]

/-- `is_contract_wallet` (lines 18-29), shallowly embedded over the outcome
of the `w3.eth.get_code` RPC query for the given address: `Option.some code`
is the returned bytecode as a byte list (web3.py returns `HexBytes`, which
compares as `bytes`; an account with no code yields `HexBytes('0x')`, i.e.
the EMPTY byte string `b''`), and `Option.none` means the `try` block raised
(network error, malformed address, node error).  The source returns
`code != b'0x'`, i.e. inequality with the two-byte string `b"0x"`, and
`False` from the `except` handler. -/
def is_contract_wallet (rpcResult : Option (List Nat)) : Bool :=
  match rpcResult with
  | Option.some code => code != b0x
  | Option.none => false

/-- One invocation's view of the external world for `run_clob_bridge`
(lines 32-58): the result of `shutil.which('node')`, whether the bridge
script exists at its computed path, that path's textual form, and the
spawned process's exit status and decoded output streams. -/
structure BridgeEnv where
  nodePath : Option String
  scriptExists : Bool
  scriptPath : String
  returncode : Int
  stdout : String
  stderr : String

/-- The `{'success': False, 'error': msg}` dictionaries the module builds on
every bridge failure path. -/
def errorResp (msg : String) : PyVal :=
  PyVal.dict [("success", PyVal.bool false), ("error", PyVal.str msg)]

/-- `run_clob_bridge` (lines 32-58).  `jloads` embeds the external library
call `json.loads` (`Option.none` when it raises `JSONDecodeError`); the
`action`/`payload` request is serialized to the process's stdin, so the
result depends on it only through `env`, which already records the process's
behaviour.  Mirrors the source exactly: missing node executable and missing
script short-circuit; a non-zero exit returns
`(stderr or stdout).strip() or 'CLOB bridge failed'` as the error; on exit 0
the module parses `stdout.decode() or '{}'` and returns the parse verbatim,
with `JSONDecodeError` mapped to the fixed invalid-response error. -/
def run_clob_bridge (jloads : String → Option PyVal) (env : BridgeEnv)
    (action : String) (payload : PyVal) : PyVal :=
  match env.nodePath with
  | Option.none =>
    errorResp "Node.js is required for CLOB execution. Install Node.js >=18."
  | Option.some _ =>
    if env.scriptExists = false then
      errorResp ("CLOB bridge script not found at " ++ env.scriptPath)
    else if env.returncode = 0 then
      match jloads (if env.stdout = "" then "\x7b\x7d" else env.stdout) with
      | Option.some j => j
      | Option.none => errorResp "Invalid response from CLOB bridge"
    else
      let error_output := pyStrip (if env.stderr = "" then env.stdout else env.stderr)
      errorResp (if error_output = "" then "CLOB bridge failed" else error_output)

/-- The `ClobClient` state set up by `__init__` (lines 64-81). -/
structure ClobClient where
  host : String
  chain_id : Int
  wallet : String
  api_creds : List (String × PyVal)
  signature_type : String
  proxy_wallet : Option String
  api_key : PyVal
  api_secret : PyVal
  api_passphrase : PyVal

/-- `ClobClient.__init__` (lines 64-81): strips trailing slashes from the
host, replaces a missing/None credential dict by `… or {}`, and sets
`api_key`/`api_secret`/`api_passphrase` to `api_creds.get(…) if api_creds
else None` — i.e. `None` whenever the passed dict is `None` or empty. -/
def ClobClient.make (host : String) (chain_id : Int) (wallet : String)
    (api_creds : Option (List (String × PyVal))) (signature_type : String)
    (proxy_wallet : Option String) : ClobClient :=
  { host := pyRstrip host '/'
    chain_id := chain_id
    wallet := wallet
    api_creds :=
      match api_creds with
      | Option.some d => d
      | Option.none => []
    signature_type := signature_type
    proxy_wallet := proxy_wallet
    api_key :=
      match api_creds with
      | Option.some d => if d.isEmpty then PyVal.none else dictGet d "key"
      | Option.none => PyVal.none
    api_secret :=
      match api_creds with
      | Option.some d => if d.isEmpty then PyVal.none else dictGet d "secret"
      | Option.none => PyVal.none
    api_passphrase :=
      match api_creds with
      | Option.some d => if d.isEmpty then PyVal.none else dictGet d "passphrase"
      | Option.none => PyVal.none }

/-- The `order_args` / `payload` dictionaries assembled by `post_order`
(lines 115-133), with the literal dict keys as record fields.
`funderAddress` carries `self.proxy_wallet : Optional[str]`. -/
structure OrderArgs where
  side : PyVal
  tokenID : PyVal
  amount : PyVal
  price : PyVal

structure Payload where
  host : String
  chainId : Int
  signatureType : String
  funderAddress : Option String
  privateKey : String
  orderType : String
  order : OrderArgs

/-- The payload as the Python dict actually handed to `run_clob_bridge`. -/
def Payload.toPyVal (p : Payload) : PyVal :=
  PyVal.dict
    [ ("host", PyVal.str p.host)
    , ("chainId", PyVal.int p.chainId)
    , ("signatureType", PyVal.str p.signatureType)
    , ("funderAddress",
        match p.funderAddress with
        | Option.some a => PyVal.str a
        | Option.none => PyVal.none)
    , ("privateKey", PyVal.str p.privateKey)
    , ("orderType", PyVal.str p.orderType)
    , ("order", PyVal.dict
        [ ("side", p.order.side)
        , ("tokenID", p.order.tokenID)
        , ("amount", p.order.amount)
        , ("price", p.order.price) ]) ]

/-- The payload-assembly half of `ClobClient.post_order` (lines 115-133).
`signed_order : Optional[Dict]`; `order = signed_order or {}` makes a `None`
argument behave as the empty dict; the token identifier is
`order.get('tokenID') or order.get('tokenId')`; the private key comes from
`ENV.PRIVATE_KEY`. -/
def post_order_payload (env : EnvConfig) (c : ClobClient)
    (signed_order : Option (List (String × PyVal))) (order_type : String) :
    Payload :=
  let order :=
    match signed_order with
    | Option.some d => d
    | Option.none => []
  { host := c.host
    chainId := c.chain_id
    signatureType := c.signature_type
    funderAddress := c.proxy_wallet
    privateKey := env.PRIVATE_KEY
    orderType := order_type
    order :=
      { side := dictGet order "side"
        tokenID := pyOr (dictGet order "tokenID") (dictGet order "tokenId")
        amount := dictGet order "amount"
        price := dictGet order "price" } }

/-- `ClobClient.post_order` (lines 115-135): assembles the payload and
returns `run_clob_bridge('post_order', payload)`'s response unchanged. -/
def post_order (jloads : String → Option PyVal) (benv : BridgeEnv)
    (env : EnvConfig) (c : ClobClient)
    (signed_order : Option (List (String × PyVal))) (order_type : String) :
    PyVal :=
  run_clob_bridge jloads benv "post_order"
    (Payload.toPyVal (post_order_payload env c signed_order order_type))

/-- Signature-type resolution of `create_clob_client` (lines 146-156):
`os.getenv('CLOB_SIGNATURE_TYPE')` yields `None` when unset, and Python's
`if signature_override:` is also false for the empty string; otherwise the
override wins, else the wallet-classifier result picks
`POLY_PROXY`/`EOA`. -/
def resolve_signature_type (signature_override : Option String)
    (is_proxy_contract : Bool) : String :=
  match signature_override with
  | Option.some s =>
    if s = "" then (if is_proxy_contract then "POLY_PROXY" else "EOA") else s
  | Option.none => if is_proxy_contract then "POLY_PROXY" else "EOA"

/-- Credential acquisition of `create_clob_client` (lines 167-174).
The source's `create_api_key`/`derive_api_key` are unimplemented stubs
(`return {}`, lines 83-93); per the spec (§4.3) they are modelled as
pluggable operations whose outcome — a credential dict, or a raised
exception — is an input.  The `try` block first calls create; when
`creds.get('key')` is falsy it calls derive; an exception raised by either
call is caught and yields the empty dict. -/
def acquire_creds (createResult deriveResult : Except String (List (String × PyVal))) :
    List (String × PyVal) :=
  match createResult with
  | Except.error _ => []
  | Except.ok creds =>
    if pyTruthy (dictGet creds "key") then creds
    else
      match deriveResult with
      | Except.error _ => []
      | Except.ok creds2 => creds2

/-- The external world observed by one run of `create_clob_client`: the
RPC bytecode query for `ENV.PROXY_WALLET` (as for `is_contract_wallet`),
and the outcomes of the two credential operations. -/
structure World where
  rpcResult : Option (List Nat)
  createResult : Except String (List (String × PyVal))
  deriveResult : Except String (List (String × PyVal))

/-- `create_clob_client` (lines 138-186): fixes `chain_id = 137`, resolves
the signature type from the override and the wallet classifier, acquires
credentials (the intermediate credential-less client instance is used only
to invoke the two stub operations and is then discarded), and returns the
final client, whose `proxy_wallet` is `ENV.PROXY_WALLET` exactly when the
classifier returned true. -/
def create_clob_client (env : EnvConfig) (w : World) : ClobClient :=
  let chain_id : Int := 137
  let host := env.CLOB_HTTP_URL
  let is_proxy_contract := is_contract_wallet w.rpcResult
  let signature_type :=
    resolve_signature_type env.CLOB_SIGNATURE_TYPE is_proxy_contract
  let creds := acquire_creds w.createResult w.deriveResult
  ClobClient.make host chain_id "account" (Option.some creds) signature_type
    (if is_proxy_contract then Option.some env.PROXY_WALLET else Option.none)

/-! Concrete fixtures used to instantiate the theorems below. -/

/-- A concrete stand-in for `json.loads` on the fixture documents: like
Python's parser it maps the literal "\x7b\x7d" to the empty object, maps the
fixture bridge response document to its parse, and fails on everything
else. -/
def jloads0 : String → Option PyVal := fun s =>
  if s = "\x7b\x7d" then Option.some (PyVal.dict [])
  else if s = "response-document" then
    Option.some (PyVal.dict
      [("success", PyVal.bool true), ("orderID", PyVal.str "0xabc")])
  else Option.none

def benvNoNode : BridgeEnv :=
  { nodePath := Option.none, scriptExists := false
    scriptPath := "scripts/clob_bridge.mjs"
    returncode := 0, stdout := "", stderr := "" }

def benvEmptyStdout : BridgeEnv :=
  { nodePath := Option.some "/usr/bin/node", scriptExists := true
    scriptPath := "scripts/clob_bridge.mjs"
    returncode := 0, stdout := "", stderr := "" }

def benvBadJson : BridgeEnv :=
  { nodePath := Option.some "/usr/bin/node", scriptExists := true
    scriptPath := "scripts/clob_bridge.mjs"
    returncode := 0, stdout := "oops not json", stderr := "" }

def benvBadSignature : BridgeEnv :=
  { nodePath := Option.some "/usr/bin/node", scriptExists := true
    scriptPath := "scripts/clob_bridge.mjs"
    returncode := 1, stdout := "", stderr := "bad signature" }

def benvWhitespaceStderr : BridgeEnv :=
  { nodePath := Option.some "/usr/bin/node", scriptExists := true
    scriptPath := "scripts/clob_bridge.mjs"
    returncode := 1, stdout := "fallback detail", stderr := "\n" }

def benvOkJson : BridgeEnv :=
  { nodePath := Option.some "/usr/bin/node", scriptExists := true
    scriptPath := "scripts/clob_bridge.mjs"
    returncode := 0, stdout := "response-document", stderr := "" }

def envNoOverride : EnvConfig :=
  { RPC_URL := "https://polygon-rpc.com"
    CLOB_HTTP_URL := "https://clob.polymarket.com"
    PRIVATE_KEY := "0xdeadbeef"
    PROXY_WALLET := "0x1234ProxyWallet"
    CLOB_SIGNATURE_TYPE := Option.none }

def envOverrideEOA : EnvConfig :=
  { RPC_URL := "https://polygon-rpc.com"
    CLOB_HTTP_URL := "https://clob.polymarket.com"
    PRIVATE_KEY := "0xdeadbeef"
    PROXY_WALLET := "0x1234ProxyWallet"
    CLOB_SIGNATURE_TYPE := Option.some "EOA" }

/-- A world whose RPC query returns non-empty bytecode for the proxy
wallet. -/
def worldContract : World :=
  { rpcResult := Option.some [96, 96, 96, 64]
    createResult := Except.ok [], deriveResult := Except.ok [] }

/-- A world where credential creation returns no key and derivation
succeeds with key "abc" (spec Scenario 6). -/
def worldDeriveAbc : World :=
  { rpcResult := Option.none
    createResult := Except.ok []
    deriveResult := Except.ok [("key", PyVal.str "abc")] }

def client0 : ClobClient :=
  ClobClient.make "https://clob.polymarket.com" 137 "account" Option.none
    "EOA" Option.none

/-! Helper lemmas: the four exit branches of `run_clob_bridge`. -/

theorem rcb_no_node (jloads : String → Option PyVal) (env : BridgeEnv)
    (action : String) (payload : PyVal) (h : env.nodePath = Option.none) :
    run_clob_bridge jloads env action payload =
      errorResp "Node.js is required for CLOB execution. Install Node.js >=18." := by
  unfold run_clob_bridge
  rw [h]


theorem rcb_no_script (jloads : String → Option PyVal) (env : BridgeEnv)
    (action : String) (payload : PyVal) (np : String)
    (hn : env.nodePath = Option.some np) (hs : env.scriptExists = false) :
    run_clob_bridge jloads env action payload =
      errorResp ("CLOB bridge script not found at " ++ env.scriptPath) := by
  unfold run_clob_bridge
  rw [hn, hs]
  rfl

theorem rcb_nonzero (jloads : String → Option PyVal) (env : BridgeEnv)
    (action : String) (payload : PyVal) (np : String)
    (hn : env.nodePath = Option.some np) (hs : env.scriptExists = true)
    (hr : env.returncode ≠ 0) :
    run_clob_bridge jloads env action payload =
      errorResp
        (if pyStrip (if env.stderr = "" then env.stdout else env.stderr) = ""
          then "CLOB bridge failed"
          else pyStrip (if env.stderr = "" then env.stdout else env.stderr)) := by
  unfold run_clob_bridge
  rw [hn, hs, if_neg hr]
  rfl

theorem rcb_parse (jloads : String → Option PyVal) (env : BridgeEnv)
    (action : String) (payload : PyVal) (np : String) (j : PyVal)
    (hn : env.nodePath = Option.some np) (hs : env.scriptExists = true)
    (hr : env.returncode = 0)
    (hj : jloads (if env.stdout = "" then "\x7b\x7d" else env.stdout) =
      Option.some j) :
    run_clob_bridge jloads env action payload = j := by
  unfold run_clob_bridge
  rw [hn, hs, hr, hj]
  rfl

theorem rcb_parse_fail (jloads : String → Option PyVal) (env : BridgeEnv)
    (action : String) (payload : PyVal) (np : String)
    (hn : env.nodePath = Option.some np) (hs : env.scriptExists = true)
    (hr : env.returncode = 0)
    (hj : jloads (if env.stdout = "" then "\x7b\x7d" else env.stdout) =
      Option.none) :
    run_clob_bridge jloads env action payload =
      errorResp "Invalid response from CLOB bridge" := by
  unfold run_clob_bridge
  rw [hn, hs, hr, hj]
  rfl

/-! Claim theorems. -/

/-- C1 (code bug): `is_contract_wallet` does NOT return true iff the
returned bytecode is non-empty.  web3.py's `get_code` yields the EMPTY byte
string for an account with no code, but the source compares against the
two-byte literal `b"0x"`; hence empty bytecode is classified as a contract
(`true`), contradicting the function's own docstring and comment.  A
successful query whose bytecode happens to be exactly the bytes 0x30 0x78 —
non-empty — yields `false`, and an RPC error yields `false` as claimed. -/
theorem is_contract_wallet_empty_code_misclassified :
    is_contract_wallet (Option.some []) = true ∧
    is_contract_wallet (Option.some [48, 120]) = false ∧
    is_contract_wallet Option.none = false :=
  ⟨rfl, rfl, rfl⟩

/-- C2 counterexample: the bridge process exits with status 0 and EMPTY
standard output, yet `run_clob_bridge` returns the empty JSON object — the
source parses `stdout.decode() or '\x7b\x7d'` — and not the claimed
`\x7bsuccess: false, error: "Invalid response from CLOB bridge"\x7d`. -/
theorem run_clob_bridge_empty_stdout_counterexample :
    run_clob_bridge jloads0 benvEmptyStdout "post_order" PyVal.none =
      PyVal.dict [] ∧
    PyVal.dict [] ≠ errorResp "Invalid response from CLOB bridge" := by
  refine ⟨rfl, ?_⟩
  intro h
  simp [errorResp] at h

/-- C2 amended: with exit status 0, a NON-EMPTY standard output that is not
valid JSON yields the invalid-response error; an empty standard output is
replaced by the literal "\x7b\x7d" and its parse (the empty object) is
returned instead. -/
theorem run_clob_bridge_invalid_json (jloads : String → Option PyVal)
    (env : BridgeEnv) (action : String) (payload : PyVal) (np : String)
    (hn : env.nodePath = Option.some np) (hs : env.scriptExists = true)
    (hr : env.returncode = 0) :
    (env.stdout ≠ "" → jloads env.stdout = Option.none →
      run_clob_bridge jloads env action payload =
        errorResp "Invalid response from CLOB bridge") ∧
    (∀ j, env.stdout = "" → jloads "\x7b\x7d" = Option.some j →
      run_clob_bridge jloads env action payload = j) := by
  constructor
  · intro hne hj
    exact rcb_parse_fail jloads env action payload np hn hs hr
      (by rw [if_neg hne]; exact hj)
  · intro j he hj
    exact rcb_parse jloads env action payload np j hn hs hr
      (by rw [if_pos he]; exact hj)

/-- C2 amended, witness: exit 0 with the non-empty, unparsable stdout
"oops not json" produces the invalid-response error. -/
theorem run_clob_bridge_invalid_json_witness :
    run_clob_bridge jloads0 benvBadJson "post_order" PyVal.none =
      errorResp "Invalid response from CLOB bridge" :=
  (run_clob_bridge_invalid_json jloads0 benvBadJson "post_order" PyVal.none
    "/usr/bin/node" rfl rfl rfl).1 (by decide) rfl

/-- C4: `run_clob_bridge` is a total function — every invocation returns
either a `success = false` error dictionary or the JSON document parsed from
standard output — and each enumerated failure mode (executable absent,
script absent, non-zero exit, invalid JSON output) yields the corresponding
`\x7bsuccess: false, error: msg\x7d` value. -/
theorem run_clob_bridge_never_raises (jloads : String → Option PyVal)
    (env : BridgeEnv) (action : String) (payload : PyVal) :
    ((∃ msg, run_clob_bridge jloads env action payload = errorResp msg) ∨
      (∃ j, jloads (if env.stdout = "" then "\x7b\x7d" else env.stdout) =
          Option.some j ∧
        run_clob_bridge jloads env action payload = j)) ∧
    (env.nodePath = Option.none →
      run_clob_bridge jloads env action payload =
        errorResp "Node.js is required for CLOB execution. Install Node.js >=18.") ∧
    (∀ np, env.nodePath = Option.some np → env.scriptExists = false →
      run_clob_bridge jloads env action payload =
        errorResp ("CLOB bridge script not found at " ++ env.scriptPath)) ∧
    (∀ np, env.nodePath = Option.some np → env.scriptExists = true →
      env.returncode ≠ 0 →
      ∃ msg, run_clob_bridge jloads env action payload = errorResp msg) ∧
    (∀ np, env.nodePath = Option.some np → env.scriptExists = true →
      env.returncode = 0 →
      jloads (if env.stdout = "" then "\x7b\x7d" else env.stdout) = Option.none →
      run_clob_bridge jloads env action payload =
        errorResp "Invalid response from CLOB bridge") := by
  refine ⟨?_, fun h => rcb_no_node jloads env action payload h,
    fun np hn hs => rcb_no_script jloads env action payload np hn hs,
    fun np hn hs hr => ⟨_, rcb_nonzero jloads env action payload np hn hs hr⟩,
    fun np hn hs hr hj => rcb_parse_fail jloads env action payload np hn hs hr hj⟩
  rcases hn : env.nodePath with _ | np
  · exact Or.inl ⟨_, rcb_no_node jloads env action payload hn⟩
  · cases hs : env.scriptExists
    · exact Or.inl ⟨_, rcb_no_script jloads env action payload np hn hs⟩
    · by_cases hr : env.returncode = 0
      · rcases hj : jloads (if env.stdout = "" then "\x7b\x7d" else env.stdout)
          with _ | j
        · exact Or.inl ⟨_, rcb_parse_fail jloads env action payload np hn hs hr hj⟩
        · exact Or.inr ⟨j, rfl, rcb_parse jloads env action payload np j hn hs hr hj⟩
      · exact Or.inl ⟨_, rcb_nonzero jloads env action payload np hn hs hr⟩

/-- C4 witness: with no node executable resolvable, the invocation returns
the fixed install-node error value (spec Scenario 3). -/
theorem run_clob_bridge_never_raises_witness :
    run_clob_bridge jloads0 benvNoNode "post_order" PyVal.none =
      errorResp "Node.js is required for CLOB execution. Install Node.js >=18." :=
  (run_clob_bridge_never_raises jloads0 benvNoNode "post_order" PyVal.none).2.1 rfl

/-- C6 counterexample: the process exits 1 with NON-EMPTY (whitespace-only)
standard error while standard output is non-empty, yet the returned error is
the generic "CLOB bridge failed" — because the source strips the selected
stream — and not the standard-error content the claim requires. -/
theorem run_clob_bridge_stderr_strip_counterexample :
    benvWhitespaceStderr.returncode ≠ 0 ∧
    benvWhitespaceStderr.stderr ≠ "" ∧
    benvWhitespaceStderr.stdout ≠ "" ∧
    run_clob_bridge jloads0 benvWhitespaceStderr "post_order" PyVal.none =
      errorResp "CLOB bridge failed" ∧
    errorResp "CLOB bridge failed" ≠ errorResp benvWhitespaceStderr.stderr := by
  refine ⟨by decide, by decide, by decide, rfl, ?_⟩
  intro h
  simp [errorResp, benvWhitespaceStderr] at h

/-- C6 amended: on non-zero exit the source selects stderr when non-empty,
else stdout, then STRIPS surrounding whitespace; the stripped text is the
error when non-empty, else the generic "CLOB bridge failed".  In particular
stderr "bad signature" yields exactly "bad signature". -/
theorem run_clob_bridge_nonzero_exit (jloads : String → Option PyVal)
    (env : BridgeEnv) (action : String) (payload : PyVal) (np : String)
    (hn : env.nodePath = Option.some np) (hs : env.scriptExists = true)
    (hr : env.returncode ≠ 0) :
    (env.stderr ≠ "" → pyStrip env.stderr ≠ "" →
      run_clob_bridge jloads env action payload = errorResp (pyStrip env.stderr)) ∧
    (env.stderr = "" → pyStrip env.stdout ≠ "" →
      run_clob_bridge jloads env action payload = errorResp (pyStrip env.stdout)) ∧
    (pyStrip (if env.stderr = "" then env.stdout else env.stderr) = "" →
      run_clob_bridge jloads env action payload = errorResp "CLOB bridge failed") := by
  have base := rcb_nonzero jloads env action payload np hn hs hr
  refine ⟨?_, ?_, ?_⟩
  · intro h1 h2
    rw [base, if_neg h1, if_neg h2]
  · intro h1 h2
    rw [base, if_pos h1, if_neg h2]
  · intro h1
    rw [base, if_pos h1]

/-- C6 amended, witness: exit 1 with stderr "bad signature" returns the
error "bad signature" (spec Scenario 4). -/
theorem run_clob_bridge_nonzero_exit_witness :
    run_clob_bridge jloads0 benvBadSignature "post_order" PyVal.none =
      errorResp "bad signature" :=
  (run_clob_bridge_nonzero_exit jloads0 benvBadSignature "post_order"
    PyVal.none "/usr/bin/node" rfl rfl (by decide)).1 (by decide) (by decide)

/-- C7: when the bridge process exits 0 with (non-empty) standard output
that parses as a JSON document, `run_clob_bridge` returns the parsed
document unchanged, and `post_order` returns that bridge response
unchanged. -/
theorem bridge_roundtrip (jloads : String → Option PyVal) (benv : BridgeEnv)
    (env : EnvConfig) (c : ClobClient) (so : Option (List (String × PyVal)))
    (order_type : String) (action : String) (payload : PyVal) (np : String)
    (j : PyVal) (hn : benv.nodePath = Option.some np)
    (hs : benv.scriptExists = true) (hr : benv.returncode = 0)
    (hne : benv.stdout ≠ "") (hj : jloads benv.stdout = Option.some j) :
    run_clob_bridge jloads benv action payload = j ∧
    post_order jloads benv env c so order_type = j := by
  constructor
  · exact rcb_parse jloads benv action payload np j hn hs hr
      (by rw [if_neg hne]; exact hj)
  · unfold post_order
    exact rcb_parse jloads benv _ _ np j hn hs hr
      (by rw [if_neg hne]; exact hj)

/-- C7 witness: the fixture response document is returned verbatim both by
`run_clob_bridge` and by `post_order`. -/
theorem bridge_roundtrip_witness :
    run_clob_bridge jloads0 benvOkJson "status" PyVal.none =
      PyVal.dict [("success", PyVal.bool true), ("orderID", PyVal.str "0xabc")] ∧
    post_order jloads0 benvOkJson envNoOverride client0 Option.none "GTC" =
      PyVal.dict [("success", PyVal.bool true), ("orderID", PyVal.str "0xabc")] :=
  bridge_roundtrip jloads0 benvOkJson envNoOverride client0 Option.none "GTC"
    "status" PyVal.none "/usr/bin/node"
    (PyVal.dict [("success", PyVal.bool true), ("orderID", PyVal.str "0xabc")])
    rfl rfl rfl (by decide) rfl

/-- C3 counterexample: with the explicit override "EOA" set while the chain
classifies the proxy wallet as a contract, the resolved signature type is
"EOA" (not the proxy scheme) yet the assembled payload's funderAddress is
the non-null proxy wallet address — refuting the claimed equivalence between
a non-null funderAddress and signature type POLY_PROXY. -/
theorem post_order_funder_despite_eoa :
    (create_clob_client envOverrideEOA worldContract).signature_type = "EOA" ∧
    (post_order_payload envOverrideEOA
        (create_clob_client envOverrideEOA worldContract) Option.none
        "GTC").funderAddress = Option.some "0x1234ProxyWallet" :=
  ⟨rfl, rfl⟩

/-- C3 amended: the payload's funderAddress is non-null exactly when the
wallet classifier returned true for the configured proxy wallet; only in the
absence of an explicit override does this coincide with the resolved
signature type being POLY_PROXY. -/
theorem post_order_funder_iff_classifier (env : EnvConfig) (w : World)
    (so : Option (List (String × PyVal))) (order_type : String) :
    ((post_order_payload env (create_clob_client env w) so
        order_type).funderAddress ≠ Option.none ↔
      is_contract_wallet w.rpcResult = true) ∧
    (env.CLOB_SIGNATURE_TYPE = Option.none →
      ((post_order_payload env (create_clob_client env w) so
          order_type).funderAddress ≠ Option.none ↔
        (create_clob_client env w).signature_type = "POLY_PROXY")) := by
  have hf : (post_order_payload env (create_clob_client env w) so
      order_type).funderAddress =
      (if is_contract_wallet w.rpcResult then Option.some env.PROXY_WALLET
        else Option.none) := rfl
  have hsig : (create_clob_client env w).signature_type =
      resolve_signature_type env.CLOB_SIGNATURE_TYPE
        (is_contract_wallet w.rpcResult) := rfl
  cases hcl : is_contract_wallet w.rpcResult
  · constructor
    · rw [hf, hcl]
      simp
    · intro hov
      rw [hf, hcl, hsig, hov, hcl]
      unfold resolve_signature_type
      simp
  · constructor
    · rw [hf, hcl]
      simp
    · intro hov
      rw [hf, hcl, hsig, hov, hcl]
      unfold resolve_signature_type
      simp

/-- C3 amended, witness: with no override and a contract-classified proxy
wallet, the payload carries a non-null funderAddress (spec Scenario 1). -/
theorem post_order_funder_iff_classifier_witness :
    (post_order_payload envNoOverride
        (create_clob_client envNoOverride worldContract) Option.none
        "GTC").funderAddress ≠ Option.none :=
  ((post_order_funder_iff_classifier envNoOverride worldContract Option.none
    "GTC").2 rfl).mpr rfl

/-- C5: whenever the environment sets a (non-empty, per Python truthiness)
`CLOB_SIGNATURE_TYPE` override, the client built by `create_clob_client`
carries exactly that signature type, whatever the wallet classifier said. -/
theorem signature_override_wins (env : EnvConfig) (w : World) (s : String)
    (hset : env.CLOB_SIGNATURE_TYPE = Option.some s) (hne : s ≠ "") :
    (create_clob_client env w).signature_type = s := by
  have hsig : (create_clob_client env w).signature_type =
      resolve_signature_type env.CLOB_SIGNATURE_TYPE
        (is_contract_wallet w.rpcResult) := rfl
  rw [hsig, hset]
  simp [resolve_signature_type, hne]

/-- C5 witness: override "EOA" with a contract-classified target address
still resolves to "EOA" (spec Scenario 2). -/
theorem signature_override_wins_witness :
    (create_clob_client envOverrideEOA worldContract).signature_type = "EOA" :=
  signature_override_wins envOverrideEOA worldContract "EOA" rfl (by decide)

/-- C8: credential acquisition first attempts creation; when creation
returns a dict with no (truthy) key, derivation is attempted and the final
client carries the derived credentials (and its api_key is their "key"
entry); when creation raises, or derivation raises after a key-less
creation, the final client carries the empty credential dict — construction
always completes. -/
theorem credential_acquisition (env : EnvConfig) (w : World) :
    (∀ c d, w.createResult = Except.ok c →
      pyTruthy (dictGet c "key") = false → w.deriveResult = Except.ok d →
        (create_clob_client env w).api_creds = d ∧
        (create_clob_client env w).api_key = dictGet d "key") ∧
    (∀ e, w.createResult = Except.error e →
      (create_clob_client env w).api_creds = []) ∧
    (∀ c e, w.createResult = Except.ok c →
      pyTruthy (dictGet c "key") = false → w.deriveResult = Except.error e →
      (create_clob_client env w).api_creds = []) := by
  have hcreds : (create_clob_client env w).api_creds =
      acquire_creds w.createResult w.deriveResult := rfl
  have hkey : (create_clob_client env w).api_key =
      (if (acquire_creds w.createResult w.deriveResult).isEmpty then PyVal.none
        else dictGet (acquire_creds w.createResult w.deriveResult) "key") := rfl
  refine ⟨?_, ?_, ?_⟩
  · intro c d hc hk hd
    have hac : acquire_creds w.createResult w.deriveResult = d := by
      simp [acquire_creds, hc, hk, hd]
    refine ⟨by rw [hcreds, hac], ?_⟩
    rw [hkey, hac]
    cases d
    · rfl
    · rfl
  · intro e hc
    rw [hcreds]
    simp [acquire_creds, hc]
  · intro c e hc hk hd
    rw [hcreds]
    simp [acquire_creds, hc, hk, hd]

/-- C8 witness: creation returns no key, derivation succeeds with key "abc",
and the final client configuration carries key "abc" (spec Scenario 6). -/
theorem credential_acquisition_witness :
    (create_clob_client envNoOverride worldDeriveAbc).api_creds =
      [("key", PyVal.str "abc")] ∧
    (create_clob_client envNoOverride worldDeriveAbc).api_key =
      PyVal.str "abc" := by
  have h := (credential_acquisition envNoOverride worldDeriveAbc).1 []
    [("key", PyVal.str "abc")] rfl rfl rfl
  exact ⟨h.1, h.2⟩

/-- C9: every client produced by `create_clob_client` has chain id 137
(Polygon), and every payload assembled from such a client carries chain id
137, whatever the environment and external world. -/
theorem chain_id_always_137 (env : EnvConfig) (w : World)
    (so : Option (List (String × PyVal))) (order_type : String) :
    (create_clob_client env w).chain_id = 137 ∧
    (post_order_payload env (create_clob_client env w) so
      order_type).chainId = 137 :=
  ⟨rfl, rfl⟩

/-- C10 counterexample: the field "tokenID" is present in the signed order
(holding JSON null) yet the assembled token identifier is taken from
"tokenId" — Python's `or` skips any falsy "tokenID" value, refuting the
claim's "taken from 'tokenID' when present". -/
theorem post_order_tokenID_present_skipped :
    (List.lookup "tokenID"
      [("tokenID", PyVal.none), ("tokenId", PyVal.str "7158")]).isSome = true ∧
    (post_order_payload envNoOverride client0
      (Option.some [("tokenID", PyVal.none), ("tokenId", PyVal.str "7158")])
      "GTC").order.tokenID = PyVal.str "7158" :=
  ⟨rfl, rfl⟩

/-- C10 amended: `post_order` is total in its order argument — a null/absent
signed order yields a payload whose side, tokenID, amount and price are all
null — and the token identifier is taken from "tokenID" when that field
holds a truthy value, else from "tokenId". -/
theorem post_order_total_null_order (env : EnvConfig) (c : ClobClient)
    (order_type : String) :
    ((post_order_payload env c Option.none order_type).order.side =
        PyVal.none ∧
      (post_order_payload env c Option.none order_type).order.tokenID =
        PyVal.none ∧
      (post_order_payload env c Option.none order_type).order.amount =
        PyVal.none ∧
      (post_order_payload env c Option.none order_type).order.price =
        PyVal.none) ∧
    (∀ d, pyTruthy (dictGet d "tokenID") = true →
      (post_order_payload env c (Option.some d) order_type).order.tokenID =
        dictGet d "tokenID") ∧
    (∀ d, pyTruthy (dictGet d "tokenID") = false →
      (post_order_payload env c (Option.some d) order_type).order.tokenID =
        dictGet d "tokenId") := by
  refine ⟨⟨rfl, rfl, rfl, rfl⟩, ?_, ?_⟩
  · intro d hd
    show pyOr (dictGet d "tokenID") (dictGet d "tokenId") = dictGet d "tokenID"
    unfold pyOr
    rw [hd]
    rfl
  · intro d hd
    show pyOr (dictGet d "tokenID") (dictGet d "tokenId") = dictGet d "tokenId"
    unfold pyOr
    rw [hd]
    rfl

/-- C10 amended, witness: a truthy "tokenID" field is used as the token
identifier. -/
theorem post_order_total_null_order_witness :
    (post_order_payload envNoOverride client0
      (Option.some [("tokenID", PyVal.str "t1")]) "GTC").order.tokenID =
      PyVal.str "t1" :=
  (post_order_total_null_order envNoOverride client0 "GTC").2.1
    [("tokenID", PyVal.str "t1")] rfl
